import Mathlib

/-!
Shallow embedding of the CVM-colorBot repository (Python) in Lean 4,
together with theorems settling the frozen specification claims.

Modelling conventions:
* Python floats are modelled by `ℚ` (exact rational arithmetic); every float
  literal of the source is written as the corresponding rational.
* Python `//` (floor division) on possibly-negative integers is `Int.fdiv`.
* Euclidean distances `sqrt s ≤ m` are compared through their squares
  (`s ≤ m^2` for a natural threshold `m`), which is equivalent over ℝ.
* Hardware / OS state (button presses) enters as oracle parameters.
-/

namespace CVM

/-! ### src/src/aim_system/normal.py : calculate_movement -/

/-- Embedding of `calculate_movement` (normal.py lines 14-36).
`54.54` and `2.54` are the source's float literals, `0.01` the clamp floor. -/
def calculate_movement (dx dy sens dpi : ℚ) : ℚ × ℚ :=
  let cm_per_rev_base : ℚ := 5454 / 100
  let cm_per_rev : ℚ := cm_per_rev_base / max sens (1 / 100)
  let count_per_cm : ℚ := dpi / (254 / 100)
  let deg_per_count : ℚ := 360 / (cm_per_rev * count_per_cm)
  (dx * deg_per_count, dy * deg_per_count)

/-! ### src/src/capture/CaptureCard.py : crop geometry -/

/-- Embedding of the crop-rectangle computation inside
`CaptureCardCamera.get_latest_frame` (CaptureCard.py lines 282-308).
Returns `(left, top, right, bottom)` after clamping to the frame bounds. -/
def get_latest_frame_crop (base_w base_h range_x0 range_y0 offset_x offset_y
    region_size : Int) : Int × Int × Int × Int :=
  let range_x := if range_x0 < 128 then max 128 region_size else range_x0
  let range_y := if range_y0 < 128 then max 128 region_size else range_y0
  let center_x := base_w.fdiv 2
  let center_y := base_h.fdiv 2
  let left0 := center_x - range_x.fdiv 2 + offset_x
  let top0 := center_y - range_y.fdiv 2 + offset_y
  let right0 := left0 + range_x
  let bottom0 := top0 + range_y
  let left := max 0 (min left0 base_w)
  let top := max 0 (min top0 base_h)
  let right := max left (min right0 base_w)
  let bottom := max top (min bottom0 base_h)
  (left, top, right, bottom)

/-- Embedding of `get_capture_card_region` (CaptureCard.py lines 321-346). -/
def get_capture_card_region (base_w base_h range_x0 range_y0 offset_x offset_y
    region_size : Int) : Int × Int × Int × Int :=
  let range_x := if range_x0 ≤ 0 then region_size else range_x0
  let range_y := if range_y0 ≤ 0 then region_size else range_y0
  let left0 := (base_w - range_x).fdiv 2 + offset_x
  let top0 := (base_h - range_y).fdiv 2 + offset_y
  let right0 := left0 + range_x
  let bottom0 := top0 + range_y
  let left := max 0 (min left0 base_w)
  let top := max 0 (min top0 base_h)
  let right := max left (min right0 base_w)
  let bottom := max top (min bottom0 base_h)
  (left, top, right, bottom)

/-! ### src/src/utils/debug_logger.py : bounded ring buffer -/

/-- A `collections.deque(maxlen=n)` append: the new element is added on the
right and, when capacity is exceeded, the oldest elements are dropped from the
left. -/
def bounded_append (n : Nat) (buf : List α) (e : α) : List α :=
  let b := buf ++ [e]
  if n < b.length then b.drop (b.length - n) else b

/-- Capacity of `_log_buffer` (`deque(maxlen=5000)`, debug_logger.py line 31). -/
def log_buffer_maxlen : Nat := 5000

/-- Embedding of `_append_entry` (debug_logger.py lines 57-59). -/
def append_entry (buf : List α) (e : α) : List α :=
  bounded_append log_buffer_maxlen buf e

/-- The public logging operations of debug_logger.py.  Each constructor
carries the ring-buffer entry it produces; in the source every one of
`debug/info/warn/error/exception/log_print/log_click/log_press/log_release`
reaches `_emit`, and `log_move` calls `_append_entry` directly — each appends
exactly one entry to `_log_buffer`. -/
inductive LogOp (E : Type) where
  | opDebug (e : E)
  | opInfo (e : E)
  | opWarn (e : E)
  | opError (e : E)
  | opException (e : E)
  | opLogPrint (e : E)
  | opLogMove (e : E)
  | opLogClick (e : E)
  | opLogPress (e : E)
  | opLogRelease (e : E)

/-- The single ring-buffer entry appended by a logging operation. -/
def LogOp.entry : LogOp E → E
  | .opDebug e | .opInfo e | .opWarn e | .opError e | .opException e
  | .opLogPrint e | .opLogMove e | .opLogClick e | .opLogPress e
  | .opLogRelease e => e

/-- Effect of one logging operation on the ring buffer. -/
def apply_log_op (buf : List E) (op : LogOp E) : List E :=
  append_entry buf op.entry

/-- Ring buffer contents after a sequence of logging operations, starting
from the empty buffer created at module load. -/
def run_log_ops (ops : List (LogOp E)) : List E :=
  ops.foldl apply_log_op []

/-! ### src/src/aim_system/RCS.py : activation detection -/

/-- Mutable fields of `_rcs_state` touched by `check_rcs_activation`:
`last_click_time` (a float, `0.0` initially) and `button_press_time`
(`None` or a float). -/
structure RcsState where
  last_click_time : ℚ
  button_press_time : Option ℚ
deriving DecidableEq, Repr

/-- Embedding of `check_rcs_activation` (RCS.py lines 52-93).
`pressed` is the oracle value of `is_button_pressed(0)` and `now` the value of
`time.time()`; intervals are converted to milliseconds by `* 1000` as in the
source.  Returns the updated state and the boolean result. -/
def check_rcs_activation (activation_delay rapid_click_threshold : ℚ)
    (pressed : Bool) (now : ℚ) (s : RcsState) : RcsState × Bool :=
  if pressed then
    match s.button_press_time with
    | none =>
      -- press edge: record press time, then test rapid click
      if s.last_click_time > 0 ∧
          (now - s.last_click_time) * 1000 ≤ rapid_click_threshold then
        (⟨now, some now⟩, true)
      else
        -- last_click_time := now, then fall through to the hold test
        -- (hold time is (now - now) * 1000 = 0 on the press edge)
        if (now - now) * 1000 ≥ activation_delay then
          (⟨now, some now⟩, true)
        else
          (⟨now, some now⟩, false)
    | some t =>
      if (now - t) * 1000 ≥ activation_delay then (s, true) else (s, false)
  else
    match s.button_press_time with
    | some _ => (⟨now, none⟩, false)
    | none => (s, false)

/-! ### src/src/aim_system/anti_smoke_detector.py : bbox filter -/

/-- The `bbox_*` thresholds of `AntiSmokeDetector.__init__`. -/
structure BboxParams where
  bbox_min_area : Int
deriving DecidableEq, Repr

/-- Default `bbox_min_area = 48` (anti_smoke_detector.py line 58). -/
def defaultBboxParams : BboxParams := ⟨48⟩

/-- Embedding of `AntiSmokeDetector.is_bbox_plausible` (renamed here)
(anti_smoke_detector.py lines 162-258).  The bbox is a Python sequence of
ints, `frame_shape` a shape tuple; the mask and the whole contour-analysis
stage (lines 200-257, OpenCV `findContours`/`convexHull` calls) are abstracted
by the oracle `contour_stage`, which receives the mask and the clamped
rectangle.  The claim-relevant early returns (lines 174-198) are translated
exactly. -/
def is_bbox_plausible_fn (enabled : Bool) (p : BboxParams)
    (contour_stage : α → Int × Int × Int × Int → Bool)
    (bbox : Option (List Int)) (mask : Option α)
    (frame_shape : Option (List Int)) : Bool :=
  if !enabled then true
  else
    match bbox, mask, frame_shape with
    | some bb, some m, some fs =>
      if bb.length < 4 then true
      else
        let frame_h := fs.getD 0 0
        let frame_w := fs.getD 1 0
        if frame_h ≤ 0 ∨ frame_w ≤ 0 then true
        else
          let x := bb.getD 0 0
          let y := bb.getD 1 0
          let w := bb.getD 2 0
          let h := bb.getD 3 0
          if w ≤ 0 ∨ h ≤ 0 then false
          else
            let x1 := max 0 (min x (frame_w - 1))
            let y1 := max 0 (min y (frame_h - 1))
            let x2 := max (x1 + 1) (min (x + w) frame_w)
            let y2 := max (y1 + 1) (min (y + h) frame_h)
            let bw := x2 - x1
            let bh := y2 - y1
            let bbox_area := max 1 (bw * bh)
            if bbox_area < p.bbox_min_area then false
            else contour_stage m (x1, y1, x2, y2)
    | _, _, _ => true

/-! ### src/src/aim_system/anti_smoke_detector.py : shape filter -/

/-- A pixel cluster: a list of integer (x, y) coordinates. -/
abbrev Cluster := List (Int × Int)

/-- Minimum x coordinate of a cluster (0 for the empty cluster). -/
def min_x : Cluster → Int
  | [] => 0
  | q :: r => r.foldl (fun a pr => min a pr.1) q.1

/-- Maximum x coordinate of a cluster (0 for the empty cluster). -/
def max_x : Cluster → Int
  | [] => 0
  | q :: r => r.foldl (fun a pr => max a pr.1) q.1

/-- Minimum y coordinate of a cluster (0 for the empty cluster). -/
def min_y : Cluster → Int
  | [] => 0
  | q :: r => r.foldl (fun a pr => min a pr.2) q.2

/-- Maximum y coordinate of a cluster (0 for the empty cluster). -/
def max_y : Cluster → Int
  | [] => 0
  | q :: r => r.foldl (fun a pr => max a pr.2) q.2

/-- `width = max_x - min_x + 1` (anti_smoke_detector.py line 107). -/
def cluster_width (c : Cluster) : Int := max_x c - min_x c + 1

/-- `height = max_y - min_y + 1` (anti_smoke_detector.py line 108). -/
def cluster_height (c : Cluster) : Int := max_y c - min_y c + 1

/-- `area = width * height` (anti_smoke_detector.py line 109). -/
def cluster_area (c : Cluster) : Int := cluster_width c * cluster_height c

/-- The eight neighbour offsets of `_count_connected_components`. -/
def neighbors8 (q : Int × Int) : List (Int × Int) :=
  [(-1, -1), (-1, 0), (-1, 1), (0, -1), (0, 1), (1, -1), (1, 0), (1, 1)].map
    (fun d => (q.1 + d.1, q.2 + d.2))

/-- Depth-first flood fill over a pixel set, as in the `while stack:` loop of
`_count_connected_components`.  The fuel argument bounds the loop; each stack
pop consumes one unit and at most `1 + 8 * |cluster|` elements are ever
pushed, so the fuel chosen by the caller makes the bound unreachable. -/
def flood (pixels : Cluster) : Nat → Cluster → Cluster → Cluster
  | 0, visited, _ => visited
  | _ + 1, visited, [] => visited
  | fuel + 1, visited, q :: stack =>
    if visited.contains q then flood pixels fuel visited stack
    else
      flood pixels fuel (q :: visited)
        ((neighbors8 q).filter
          (fun nb => pixels.contains nb && !visited.contains nb) ++ stack)

/-- Embedding of `_count_connected_components`
(anti_smoke_detector.py lines 304-336): scan the cluster, starting a new
flood fill (and counting one component) at every unvisited pixel. -/
def count_connected_components (cluster : Cluster) : Nat :=
  (cluster.foldl
    (fun (acc : Cluster × Nat) q =>
      if acc.1.contains q then acc
      else (flood cluster (9 * cluster.length + 9) acc.1 [q], acc.2 + 1))
    ([], 0)).2

/-- Helper for `continuous_count`: walk the remaining sorted positions while
successive gaps stay at most 2. -/
def continuous_count_go (prev : Int) : List Int → Nat → Nat
  | [], acc => acc
  | y :: ys, acc => if y - prev ≤ 2 then continuous_count_go y ys (acc + 1) else acc

/-- The `continuous_count` walk of `_check_horizontal_density`
(anti_smoke_detector.py lines 369-374): over the sorted x positions, count
the initial run whose successive gaps are at most 2. -/
def continuous_count : List Int → Nat
  | [] => 0
  | x :: xs => continuous_count_go x xs 1

/-- Embedding of `_check_horizontal_density`
(anti_smoke_detector.py lines 338-381).  `thr` is
`continuous_strip_threshold`.  Pixels are grouped per horizontal strip
(distinct normalized y value); strips with fewer than 3 pixels are skipped;
a strip counts as continuous when its initial ≤2px-gap run covers at least
70% of its pixels; the cluster is flagged when at least `thr` of all strips
are continuous. -/
def check_horizontal_density (thr : ℚ) (cluster : Cluster) : Bool :=
  match cluster with
  | [] => false
  | _ =>
    let mx := min_x cluster
    let my := min_y cluster
    let strip_keys := (cluster.map (fun pr => pr.2 - my)).dedup
    let total_strips := strip_keys.length
    let continuous_strips := strip_keys.countP (fun sy =>
      let xsP := (cluster.filter (fun pr => pr.2 - my = sy)).map
        (fun pr => pr.1 - mx)
      if xsP.length < 3 then false
      else
        let sorted := xsP.mergeSort (fun a b => a ≤ b)
        decide (((continuous_count sorted : ℚ)) ≥ (xsP.length : ℚ) * (7 / 10)))
    decide ((continuous_strips : ℚ) ≥ (total_strips : ℚ) * thr)

/-- The shape-filter thresholds of `AntiSmokeDetector.__init__`
(anti_smoke_detector.py lines 36-46). -/
structure ShapeParams where
  min_pixel_count : Nat
  max_pixel_count : Nat
  min_area : Int
  max_width : Int
  max_height : Int
  max_aspect_ratio : ℚ
  max_pixel_density : ℚ
  continuous_strip_threshold : ℚ
  min_convexity_ratio : ℚ
deriving DecidableEq, Repr

/-- The default thresholds: 15, 500, 50, 80, 80, 1.3, 0.7, 0.6, 0.85. -/
def defaultShapeParams : ShapeParams :=
  ⟨15, 500, 50, 80, 80, 13 / 10, 7 / 10, 6 / 10, 85 / 100⟩

/-- Embedding of `AntiSmokeDetector.is_shape_plausible` (renamed here)
(anti_smoke_detector.py lines 76-160).  `conv` abstracts
`_calculate_convexity_ratio` (lines 260-302), whose value depends on whether
scipy is installed and on floating-point hull geometry; every rule before it
is translated exactly, in source order. -/
def is_shape_plausible_fn (enabled : Bool) (p : ShapeParams)
    (conv : Cluster → ℚ) (cluster : Cluster) : Bool :=
  match cluster with
  | [] => true
  | _ =>
    if !enabled then true
    else
      let pixel_count := cluster.length
      if pixel_count < p.min_pixel_count then false
      else if pixel_count > p.max_pixel_count then false
      else
        let width := cluster_width cluster
        let height := cluster_height cluster
        let area := width * height
        if area < p.min_area then false
        else if width > p.max_width ∨ height > p.max_height then false
        else if height = 0 then false
        else if (height : ℚ) > (width : ℚ) * (3 / 2) then true
        else if (width : ℚ) > (height : ℚ) * p.max_aspect_ratio then false
        else
          let connected_components := count_connected_components cluster
          let pixel_density : ℚ := (pixel_count : ℚ) / (area : ℚ)
          if connected_components < 3 ∧ pixel_count > 50 then false
          else if pixel_density > p.max_pixel_density ∧
              check_horizontal_density p.continuous_strip_threshold cluster then
            false
          else if 100 ≤ pixel_count ∧ pixel_count ≤ 300 ∧
              pixel_density > 1 / 2 ∧ connected_components < 5 then false
          else if conv cluster < p.min_convexity_ratio then false
          else true

/-! ### src/src/aim_system/anti_smoke_detector.py : tracking -/

/-- One live-target record of `canli_hedefler` (`pozisyon`,
`son_gorulme_ani`, `cluster`). -/
structure HedefInfo where
  pozisyon : Int × Int
  son_gorulme_ani : Nat
  cluster : Cluster
deriving DecidableEq, Repr

/-- The tracking thresholds of `AntiSmokeDetector.__init__`
(anti_smoke_detector.py lines 53-55). -/
structure TrackParams where
  max_hedef_mesafe : Nat
  hedef_kayip_suresi : Nat
  olu_ikon_suresi : Nat
deriving DecidableEq, Repr

/-- Defaults: matching distance 30 px, loss threshold 6 frames, dead-icon
memory 120 frames. -/
def defaultTrackParams : TrackParams := ⟨30, 6, 120⟩

/-- Mutable tracking state of the detector: the insertion-ordered live-target
map, the dead-icon list (position and death frame), the next id, and the
frame counter. -/
structure TrackState where
  canli_hedefler : List (Nat × HedefInfo)
  olu_ikonlar : List ((Int × Int) × Nat)
  sonraki_hedef_id : Nat
  frame_counter : Nat
deriving DecidableEq, Repr

/-- Fresh detector tracking state (`{}`, `[]`, 1, 0). -/
def initialTrackState : TrackState := ⟨[], [], 1, 0⟩

/-- Embedding of `_get_cluster_center` (anti_smoke_detector.py lines
506-517): coordinate sums floor-divided by the pixel count. -/
def get_cluster_center (cluster : Cluster) : Int × Int :=
  match cluster with
  | [] => (0, 0)
  | _ =>
    ((cluster.map Prod.fst).sum.fdiv cluster.length,
     (cluster.map Prod.snd).sum.fdiv cluster.length)

/-- `_calculate_distance p q <= m` for a natural threshold `m`, compared
through squares: `sqrt (dx*dx + dy*dy) ≤ m ↔ dx*dx + dy*dy ≤ m*m`. -/
def within_distance (m : Nat) (p q : Int × Int) : Bool :=
  decide ((p.1 - q.1) * (p.1 - q.1) + (p.2 - q.2) * (p.2 - q.2) ≤
    (m : Int) * (m : Int))

/-- Embedding of `_find_matching_target` (anti_smoke_detector.py lines
519-525): the first live target (in map insertion order) within
`max_hedef_mesafe` of the center. -/
def find_matching_target (m : Nat) (canli : List (Nat × HedefInfo))
    (center : Int × Int) : Option Nat :=
  (canli.find? (fun t => within_distance m center t.2.pozisyon)).map Prod.fst

/-- Embedding of `_is_near_dead_icon` (anti_smoke_detector.py lines
527-533). -/
def is_near_dead_icon (m : Nat) (ikonlar : List ((Int × Int) × Nat))
    (center : Int × Int) : Bool :=
  ikonlar.any (fun ik => within_distance m center ik.1)

/-- Step B of `update_frame`: run the matching loop over the shape-valid
clusters, updating matched targets in place and collecting unmatched
clusters in order.  Returns (updated live map, unmatched clusters). -/
def match_clusters (m : Nat) (fc : Nat)
    (acc : List (Nat × HedefInfo) × List Cluster) (cs : List Cluster) :
    List (Nat × HedefInfo) × List Cluster :=
  match cs with
  | [] => acc
  | c :: rest =>
    let center := get_cluster_center c
    match find_matching_target m acc.1 center with
    | some i =>
      let canli := acc.1.map (fun t =>
        if t.1 = i then (t.1, ⟨center, fc, c⟩) else t)
      match_clusters m fc (canli, acc.2) rest
    | none => match_clusters m fc (acc.1, acc.2 ++ [c]) rest

/-- Step D of `update_frame`: each unmatched cluster either becomes a new
live target (appended to the map, id incremented, cluster collected into
`valid_targets`) or is dropped when near a dead icon. -/
def create_new_targets (m : Nat) (fc : Nat)
    (ikonlar : List ((Int × Int) × Nat))
    (acc : List (Nat × HedefInfo) × Nat × List Cluster)
    (cs : List Cluster) : List (Nat × HedefInfo) × Nat × List Cluster :=
  match cs with
  | [] => acc
  | c :: rest =>
    let center := get_cluster_center c
    if is_near_dead_icon m ikonlar center then
      create_new_targets m fc ikonlar acc rest
    else
      create_new_targets m fc ikonlar
        (acc.1 ++ [(acc.2.1, ⟨center, fc, c⟩)], acc.2.1 + 1, acc.2.2 ++ [c])
        rest

/-- Embedding of `AntiSmokeDetector.update_frame`
(anti_smoke_detector.py lines 430-504), parameterized by the shape filter
`shape_filter` (the source calls its own shape filter method).  Returns the new
tracking state and the `valid_targets` list. -/
def update_frame (shape_filter : Cluster → Bool) (p : TrackParams)
    (s : TrackState) (clusters : List Cluster) : TrackState × List Cluster :=
  let fc := s.frame_counter + 1
  -- Step A: shape pre-filtering
  let shape_valid := clusters.filter shape_filter
  -- Step B: matching
  let mres :=
    match_clusters p.max_hedef_mesafe fc (s.canli_hedefler, []) shape_valid
  let canliB := mres.1
  let unmatched := mres.2
  -- Step C: loss detection and eviction
  let kayip := canliB.filter
    (fun t => decide (fc - t.2.son_gorulme_ani > p.hedef_kayip_suresi))
  let ikonlarC := s.olu_ikonlar ++ kayip.map (fun t => (t.2.pozisyon, fc))
  let canliC := canliB.filter
    (fun t => !decide (fc - t.2.son_gorulme_ani > p.hedef_kayip_suresi))
  -- Step D: new target creation / dead-icon suppression
  let cres :=
    create_new_targets p.max_hedef_mesafe fc ikonlarC
      (canliC, s.sonraki_hedef_id, []) unmatched
  let canliD := cres.1
  let next_id := cres.2.1
  let new_valid := cres.2.2
  -- output: new targets' clusters, then every live target's cluster
  let valid_targets := new_valid ++ canliD.map (fun t => t.2.cluster)
  -- Step E: dead-icon memory cleanup
  let ikonlarE := ikonlarC.filter (fun ik => decide (fc - ik.2 ≤ p.olu_ikon_suresi))
  (⟨canliD, ikonlarE, next_id, fc⟩, valid_targets)

/-! ### src/src/aim_system/normal.py : process_normal_mode -/

/-- The configuration fields read by `process_normal_mode`
(normal.py lines 110-250); attribute defaults are irrelevant here because
the model quantifies over the resolved values. -/
structure NormalConfig where
  enableaim : Bool
  selected_mouse_button : Option Nat
  enableaim_sec : Bool
  selected_mouse_button_sec : Option Nat
  fovsize : ℚ
  fovsize_sec : ℚ
  aim_type : String
  aim_type_sec : String
  aim_offsetX : ℚ
  aim_offsetY : ℚ
  aim_offsetX_sec : ℚ
  aim_offsetY_sec : ℚ
  in_game_sens : ℚ
  mouse_dpi : ℚ
  normalsmoothfov : ℚ
  normalsmooth : ℚ
  normal_x_speed : ℚ
  normal_y_speed : ℚ
  normalsmoothfov_sec : ℚ
  normalsmooth_sec : ℚ
  normal_x_speed_sec : ℚ
  normal_y_speed_sec : ℚ

/-- A detected target: `(cx, cy, distance, head_y_min, body_y_max)` with the
head/body extent present only in the 5-tuple form (normal.py lines 135-141). -/
structure Target where
  cx : ℚ
  cy : ℚ
  dist : ℚ
  head_body : Option (ℚ × ℚ)

/-- `sqrt s ≤ f` over ℝ for `s ≥ 0`, expressed on the squared distance `s`:
equivalent to `0 ≤ f ∧ s ≤ f * f`. -/
def sqrt_le (s f : ℚ) : Bool := decide (0 ≤ f ∧ s ≤ f * f)

/-- `sqrt s < f` over ℝ for `s ≥ 0`, expressed on the squared distance `s`:
equivalent to `0 < f ∧ s < f * f`. -/
def sqrt_lt (s f : ℚ) : Bool := decide (0 < f ∧ s < f * f)

/-- The vertical-delta pipeline of an aim attempt (normal.py lines 159-173
for Main, 218-232 for Secondary): raw offset delta, then the `nearest`-band
suppression, then the RCS override — in that order. -/
def aim_dy (aim_type : String) (head_body : Option (ℚ × ℚ))
    (cy offsetY center_y : ℚ) (rcs_active : Bool) : ℚ :=
  let dy := (cy + offsetY) - center_y
  let dy :=
    if aim_type = "nearest" then
      match head_body with
      | some (head_y_min, body_y_max) =>
        if head_y_min < body_y_max then
          if head_y_min ≤ cy + offsetY ∧ cy + offsetY ≤ body_y_max then 0 else dy
        else dy
      | none => dy
    else dy
  if rcs_active then 0 else dy

/-- One aim attempt's enqueued movement command (normal.py lines 150-197 for
Main, 209-256 for Secondary): offsets, nearest/RCS vertical pipeline, angle
conversion, FOV-gated smoothing, clipping, fixed 0.005s hold.  `clip` stands
for `tracker._clip_movement` and `dist_sq` for the squared
`distance_to_center`. -/
def aim_command (clip : ℚ → ℚ → ℚ × ℚ) (aim_type : String)
    (offsetX offsetY sens dpi smoothfov smooth x_speed y_speed : ℚ)
    (cx cy center_x center_y dist_sq : ℚ) (head_body : Option (ℚ × ℚ))
    (rcs_active : Bool) : ℚ × ℚ × ℚ :=
  let dx := (cx + offsetX) - center_x
  let dy := aim_dy aim_type head_body cy offsetY center_y rcs_active
  let nd := calculate_movement dx dy sens dpi
  let nd :=
    if sqrt_lt dist_sq smoothfov then
      (nd.1 * (x_speed / max smooth (1 / 100)),
       nd.2 * (y_speed / max smooth (1 / 100)))
    else (nd.1 * x_speed, nd.2 * y_speed)
  let dd := clip nd.1 nd.2
  (dd.1, dd.2, 1 / 200)

/-- Embedding of `process_normal_mode` (normal.py lines 96-259), restricted
to its enqueue behaviour.  `pressed` is the `is_button_pressed` oracle and
`rcs_active` the result of `process_rcs`; the pair returned is (Main's
enqueued command, Secondary's enqueued command), `none` when that profile
enqueued nothing.  The Secondary attempt runs only when
`main_aimbot_active` stayed false. -/
def process_normal_mode (clip : ℚ → ℚ → ℚ × ℚ) (cfg : NormalConfig)
    (pressed : Nat → Bool) (rcs_active : Bool) (targets : List Target)
    (xres yres : ℚ) : Option (ℚ × ℚ × ℚ) × Option (ℚ × ℚ × ℚ) :=
  match targets with
  | [] => (none, none)
  | t :: ts =>
    let best := ts.foldl (fun acc u => if u.dist < acc.dist then u else acc) t
    let center_x := xres / 2
    let center_y := yres / 2
    let dist_sq := (best.cx - center_x) ^ 2 + (best.cy - center_y) ^ 2
    let main_gate :=
      sqrt_le dist_sq cfg.fovsize &&
      (cfg.enableaim &&
        (match cfg.selected_mouse_button with
         | some b => pressed b
         | none => false))
    if main_gate then
      (some (aim_command clip cfg.aim_type cfg.aim_offsetX cfg.aim_offsetY
        cfg.in_game_sens cfg.mouse_dpi cfg.normalsmoothfov cfg.normalsmooth
        cfg.normal_x_speed cfg.normal_y_speed best.cx best.cy center_x
        center_y dist_sq best.head_body rcs_active), none)
    else
      let sec_gate :=
        sqrt_le dist_sq cfg.fovsize_sec &&
        (cfg.enableaim_sec &&
          (match cfg.selected_mouse_button_sec with
           | some b => pressed b
           | none => false))
      if sec_gate then
        (none, some (aim_command clip cfg.aim_type_sec cfg.aim_offsetX_sec
          cfg.aim_offsetY_sec cfg.in_game_sens cfg.mouse_dpi
          cfg.normalsmoothfov_sec cfg.normalsmooth_sec
          cfg.normal_x_speed_sec cfg.normal_y_speed_sec best.cx best.cy
          center_x center_y dist_sq best.head_body rcs_active))
      else (none, none)

/-- Modelled from the spec: `tracker._clip_movement` is not part of the
source under inspection (only its call sites in normal.py are); §4.14 calls
it "the tracker's movement-clipping function", so it is modelled as a
per-axis clamp to a maximum magnitude `m`. -/
def clip_movement (m : ℚ) (x y : ℚ) : ℚ × ℚ :=
  (max (-m) (min m x), max (-m) (min m y))

/-- A concrete configuration with Main enabled on button 0 and Secondary
disabled, used to exercise `process_normal_mode`. -/
def cfg_main_only : NormalConfig :=
  ⟨true, some 0, false, none, 100, 100, "head", "head", 0, 0, 0, 0, 7, 800,
    10, 5, 1, 1, 10, 5, 1, 1⟩

/-- A concrete configuration with Main on button 0 and Secondary on
button 1, both enabled, used to exercise `process_normal_mode`. -/
def cfg_main_sec : NormalConfig :=
  ⟨true, some 0, true, some 1, 100, 100, "head", "head", 0, 0, 0, 0, 7, 800,
    10, 5, 1, 1, 10, 5, 1, 1⟩

/-- A concrete target one pixel right of the center of a 10×10 frame. -/
def target_near_center : Target := ⟨6, 5, 1, none⟩

/-- A concrete 15-pixel cluster with bounding box 4×15 (area 60): tall-thin
(height > width × 1.5) with acceptable aspect ratio. -/
def tall_cluster_15 : Cluster :=
  [(0, 0), (1, 1), (2, 2), (3, 3), (0, 4), (1, 5), (2, 6), (3, 7), (0, 8),
   (1, 9), (2, 10), (3, 11), (0, 12), (1, 13), (2, 14)]

/-! ## Helper lemmas -/

/-- The crop-rectangle invariant of claim C8 for one axis. -/
def crop_ok (w h : Int) (c : Int × Int × Int × Int) : Prop :=
  0 ≤ c.1 ∧ c.1 ≤ c.2.2.1 ∧ c.2.2.1 ≤ w ∧
  0 ≤ c.2.1 ∧ c.2.1 ≤ c.2.2.2 ∧ c.2.2.2 ≤ h

lemma clamp_bounds (w a b : Int) (hw : 0 ≤ w) :
    0 ≤ max 0 (min a w) ∧
    max 0 (min a w) ≤ max (max 0 (min a w)) (min b w) ∧
    max (max 0 (min a w)) (min b w) ≤ w :=
  ⟨le_max_left _ _, le_max_left _ _,
    max_le (max_le hw (min_le_right _ _)) (min_le_right _ _)⟩

lemma bounded_append_eq (n : Nat) (buf : List α) (e : α) :
    bounded_append n buf e = (buf ++ [e]).drop (buf.length + 1 - n) := by
  unfold bounded_append
  have hl : (buf ++ [e]).length = buf.length + 1 := by simp
  by_cases hc : n < (buf ++ [e]).length
  · rw [if_pos hc, hl]
  · have h0 : buf.length + 1 - n = 0 := by omega
    rw [if_neg hc, h0, List.drop_zero]

lemma foldl_bounded_append (n : Nat) :
    ∀ (es : List α) (buf : List α), buf.length ≤ n →
      es.foldl (bounded_append n) buf =
        (buf ++ es).drop (buf.length + es.length - n) := by
  intro es
  induction es with
  | nil =>
    intro buf h
    have h0 : buf.length + List.length ([] : List α) - n = 0 := by
      simp only [List.length_nil]
      omega
    rw [List.foldl_nil, List.append_nil, h0, List.drop_zero]
  | cons e rest ih =>
    intro buf h
    have hl : (buf ++ [e]).length = buf.length + 1 := by simp
    have hdl : ((buf ++ [e]).drop (buf.length + 1 - n)).length =
        buf.length + 1 - (buf.length + 1 - n) := by
      rw [List.length_drop, hl]
    rw [List.foldl_cons, bounded_append_eq n buf e]
    have hlen : ((buf ++ [e]).drop (buf.length + 1 - n)).length ≤ n := by
      rw [hdl]; omega
    rw [ih _ hlen, hdl,
      ← List.drop_append_of_le_length
        (show buf.length + 1 - n ≤ (buf ++ [e]).length by rw [hl]; omega),
      List.drop_drop]
    have hassoc : buf ++ [e] ++ rest = buf ++ e :: rest := by simp
    rw [hassoc]
    have harith : buf.length + 1 - n +
        (buf.length + 1 - (buf.length + 1 - n) + rest.length - n) =
        buf.length + (e :: rest).length - n := by
      rw [List.length_cons]
      omega
    rw [harith]

/-! ## Claims -/

/-- Claim C7: `calculate_movement(dx, dy, sens, dpi)` returns exactly
`(dx * deg_per_count, dy * deg_per_count)` with
`deg_per_count = 360 / ((54.54 / max(sens, 0.01)) * (dpi / 2.54))`; for
sens=7, dpi=800, dx=100 it reproduces the spec's worked value 14.67 within
tolerance, and for every sens the clamped denominator stays strictly
positive (so the result is finite even as sens approaches 0). -/
theorem claim_C7 :
    (∀ dx dy sens dpi : ℚ, calculate_movement dx dy sens dpi =
      (dx * (360 / ((5454 / 100 / max sens (1 / 100)) * (dpi / (254 / 100)))),
       dy * (360 / ((5454 / 100 / max sens (1 / 100)) * (dpi / (254 / 100)))))) ∧
    ((calculate_movement 100 0 7 800).1 = 4445 / 303 ∧
      |(4445 : ℚ) / 303 - 1467 / 100| < 1 / 100) ∧
    (∀ sens dpi : ℚ, 0 < dpi →
      0 < (5454 / 100 / max sens (1 / 100)) * (dpi / (254 / 100))) := by
  have habs : |(4445 : ℚ) / 303 - 1467 / 100| < 1 / 100 := by
    have hv : (4445 : ℚ) / 303 - 1467 / 100 = -(1 / 30300) := by norm_num
    rw [hv, abs_neg, abs_of_pos (by norm_num)]
    norm_num
  refine ⟨fun dx dy sens dpi => rfl, ⟨?_, habs⟩, fun sens dpi hd => ?_⟩
  · have hm : max (7 : ℚ) (1 / 100) = 7 := max_eq_left (by norm_num)
    simp only [calculate_movement, hm]
    norm_num
  · have h1 : (0 : ℚ) < max sens (1 / 100) :=
      lt_of_lt_of_le (by norm_num) (le_max_right _ _)
    exact mul_pos (div_pos (by norm_num) h1) (div_pos hd (by norm_num))

/-- Witness for claim C7's hypothesized conjunct at sens=7, dpi=800. -/
theorem claim_C7_witness :
    (0 : ℚ) < 800 ∧
      0 < (5454 / 100 / max 7 (1 / 100)) * ((800 : ℚ) / (254 / 100)) :=
  ⟨by norm_num, claim_C7.2.2 7 800 (by norm_num)⟩

/-- Claim C8: for every configured capture width/height (non-negative),
range and offset, both the `get_latest_frame` crop rectangle and
`get_capture_card_region` satisfy `0 ≤ left ≤ right ≤ width` and
`0 ≤ top ≤ bottom ≤ height`: oversized ranges clamp to the frame bounds and
fully-off-frame offsets still yield a valid (possibly empty) crop. -/
theorem claim_C8 (base_w base_h range_x range_y offset_x offset_y
    region_size : Int) (hw : 0 ≤ base_w) (hh : 0 ≤ base_h) :
    crop_ok base_w base_h
      (get_latest_frame_crop base_w base_h range_x range_y offset_x offset_y
        region_size) ∧
    crop_ok base_w base_h
      (get_capture_card_region base_w base_h range_x range_y offset_x offset_y
        region_size) := by
  constructor
  · dsimp only [get_latest_frame_crop, crop_ok]
    obtain ⟨a1, a2, a3⟩ := clamp_bounds base_w
      (base_w.fdiv 2 -
        (if range_x < 128 then max 128 region_size else range_x).fdiv 2 +
        offset_x)
      (base_w.fdiv 2 -
        (if range_x < 128 then max 128 region_size else range_x).fdiv 2 +
        offset_x + (if range_x < 128 then max 128 region_size else range_x))
      hw
    obtain ⟨b1, b2, b3⟩ := clamp_bounds base_h
      (base_h.fdiv 2 -
        (if range_y < 128 then max 128 region_size else range_y).fdiv 2 +
        offset_y)
      (base_h.fdiv 2 -
        (if range_y < 128 then max 128 region_size else range_y).fdiv 2 +
        offset_y + (if range_y < 128 then max 128 region_size else range_y))
      hh
    exact ⟨a1, a2, a3, b1, b2, b3⟩
  · dsimp only [get_capture_card_region, crop_ok]
    obtain ⟨a1, a2, a3⟩ := clamp_bounds base_w
      ((base_w - (if range_x ≤ 0 then region_size else range_x)).fdiv 2 +
        offset_x)
      ((base_w - (if range_x ≤ 0 then region_size else range_x)).fdiv 2 +
        offset_x + (if range_x ≤ 0 then region_size else range_x))
      hw
    obtain ⟨b1, b2, b3⟩ := clamp_bounds base_h
      ((base_h - (if range_y ≤ 0 then region_size else range_y)).fdiv 2 +
        offset_y)
      ((base_h - (if range_y ≤ 0 then region_size else range_y)).fdiv 2 +
        offset_y + (if range_y ≤ 0 then region_size else range_y))
      hh
    exact ⟨a1, a2, a3, b1, b2, b3⟩

/-- Witness for claim C8: the spec's 1920×1080 frame with
`capture_range_x = 2000` (wider than the frame) and a huge offset pushing
the window fully outside. -/
theorem claim_C8_witness :
    (0 : Int) ≤ 1920 ∧ (0 : Int) ≤ 1080 ∧
    crop_ok 1920 1080 (get_latest_frame_crop 1920 1080 2000 2000 10000 0 200) ∧
    crop_ok 1920 1080
      (get_capture_card_region 1920 1080 2000 2000 10000 0 200) := by
  have h := claim_C8 1920 1080 2000 2000 10000 0 200 (by decide) (by decide)
  exact ⟨by decide, by decide, h.1, h.2⟩

/-- Claim C9: after any sequence of logging operations the ring buffer holds
at most 5000 entries; when capacity is exceeded the oldest entries are
evicted first — after 5050 appends the buffer length is 5000 and the oldest
surviving entry is the 51st one written. -/
theorem claim_C9 :
    (∀ (E : Type) (ops : List (LogOp E)), (run_log_ops ops).length ≤ 5000) ∧
    (∀ (E : Type) (ops : List (LogOp E)), ops.length = 5050 →
      run_log_ops ops = (ops.map LogOp.entry).drop 50 ∧
      (run_log_ops ops).length = 5000 ∧
      (run_log_ops ops).head? = (ops.map LogOp.entry).get? 50) := by
  have key : ∀ (E : Type) (ops : List (LogOp E)),
      run_log_ops ops =
        (ops.map LogOp.entry).drop ((ops.map LogOp.entry).length - 5000) := by
    intro E ops
    have hfold : run_log_ops ops =
        (ops.map LogOp.entry).foldl (bounded_append 5000) [] := by
      rw [run_log_ops, List.foldl_map]
      rfl
    rw [hfold,
      foldl_bounded_append 5000 (ops.map LogOp.entry) [] (by simp)]
    simp
  constructor
  · intro E ops
    rw [key]
    simp only [List.length_drop, List.length_map]
    omega
  · intro E ops hlen
    have hmap : (ops.map LogOp.entry).length = 5050 := by simp [hlen]
    have h1 : run_log_ops ops = (ops.map LogOp.entry).drop 50 := by
      rw [key, hmap]
    refine ⟨h1, ?_, ?_⟩
    · rw [h1]
      simp [hmap]
    · rw [h1, List.head?_drop]
      simp [List.get?_eq_getElem?]

/-- Witness for claim C9's hypothesized conjunct: 5050 identical info
entries. -/
theorem claim_C9_witness :
    run_log_ops (List.replicate 5050 (LogOp.opInfo ())) =
      ((List.replicate 5050 (LogOp.opInfo ())).map LogOp.entry).drop 50 ∧
    (run_log_ops (List.replicate 5050 (LogOp.opInfo ()))).length = 5000 ∧
    (run_log_ops (List.replicate 5050 (LogOp.opInfo ()))).head? =
      ((List.replicate 5050 (LogOp.opInfo ())).map LogOp.entry).get? 50 :=
  claim_C9.2 Unit (List.replicate 5050 (LogOp.opInfo ()))
    (by rw [List.length_replicate])

/-- Claim C2: `check_rcs_activation` returns True once the primary button
has been continuously held at least `activation_delay` ms (boundary
inclusive); returns True on a press edge whenever the previous click was
within `rapid_click_threshold` ms of the new press, regardless of hold
duration; and returns False whenever the primary button is not pressed. -/
theorem claim_C2 :
    (∀ (d r now t : ℚ) (s : RcsState), s.button_press_time = some t →
      (now - t) * 1000 ≥ d →
      (check_rcs_activation d r true now s).2 = true) ∧
    (∀ (d r now : ℚ) (s : RcsState), s.button_press_time = none →
      s.last_click_time > 0 → (now - s.last_click_time) * 1000 ≤ r →
      (check_rcs_activation d r true now s).2 = true) ∧
    (∀ (d r now : ℚ) (s : RcsState),
      (check_rcs_activation d r false now s).2 = false) := by
  refine ⟨?_, ?_, ?_⟩
  · intro d r now t s hs hd
    simp [check_rcs_activation, hs, hd]
  · intro d r now s hs hpos hr
    simp [check_rcs_activation, hs, hpos, hr]
  · intro d r now s
    rcases s with ⟨lc, bp⟩
    cases bp <;> simp [check_rcs_activation]

/-- Witness for claim C2: a 500ms hold with delay 300ms, a rapid re-press
40ms after the prior click with threshold 80ms, and a released button. -/
theorem claim_C2_witness :
    (check_rcs_activation 300 80 true (3 / 2) ⟨0, some 1⟩).2 = true ∧
    (check_rcs_activation 300 80 true (26 / 25) ⟨1, none⟩).2 = true ∧
    (check_rcs_activation 300 80 false 2 ⟨1, some 1⟩).2 = false :=
  ⟨claim_C2.1 300 80 (3 / 2) 1 ⟨0, some 1⟩ rfl (by norm_num),
   claim_C2.2.1 300 80 (26 / 25) ⟨1, none⟩ rfl (by norm_num) (by norm_num),
   claim_C2.2.2 300 80 2 ⟨1, some 1⟩⟩

/-- Claim C10: `is_bbox_plausible_fn` fails open on degenerate input — it
returns True when the detector is disabled, or bbox/mask/frame_shape is
None, or the bbox has fewer than 4 elements, or a frame dimension is
non-positive — while a bbox whose own width or height is ≤ 0 is rejected
(False) before any mask processing. -/
theorem claim_C10 :
    (∀ (α : Type) (p : BboxParams) (cs : α → Int × Int × Int × Int → Bool)
        bbox mask fs, is_bbox_plausible_fn false p cs bbox mask fs = true) ∧
    (∀ (α : Type) (p : BboxParams) (cs : α → Int × Int × Int × Int → Bool)
        mask fs, is_bbox_plausible_fn true p cs none mask fs = true) ∧
    (∀ (α : Type) (p : BboxParams) (cs : α → Int × Int × Int × Int → Bool)
        bbox fs, is_bbox_plausible_fn (α := α) true p cs bbox none fs = true) ∧
    (∀ (α : Type) (p : BboxParams) (cs : α → Int × Int × Int × Int → Bool)
        bbox mask, is_bbox_plausible_fn true p cs bbox mask none = true) ∧
    (∀ (α : Type) (p : BboxParams) (cs : α → Int × Int × Int × Int → Bool)
        (bb : List Int) (m : α) (fs : List Int), bb.length < 4 →
      is_bbox_plausible_fn true p cs (some bb) (some m) (some fs) = true) ∧
    (∀ (α : Type) (p : BboxParams) (cs : α → Int × Int × Int × Int → Bool)
        (bb : List Int) (m : α) (fs : List Int),
      fs.getD 0 0 ≤ 0 ∨ fs.getD 1 0 ≤ 0 →
      is_bbox_plausible_fn true p cs (some bb) (some m) (some fs) = true) ∧
    (∀ (α : Type) (p : BboxParams) (cs : α → Int × Int × Int × Int → Bool)
        (bb : List Int) (m : α) (fs : List Int),
      ¬ bb.length < 4 → 0 < fs.getD 0 0 → 0 < fs.getD 1 0 →
      bb.getD 2 0 ≤ 0 ∨ bb.getD 3 0 ≤ 0 →
      is_bbox_plausible_fn true p cs (some bb) (some m) (some fs) = false) := by
  refine ⟨?_, ?_, ?_, ?_, ?_, ?_, ?_⟩
  · intro α p cs bbox mask fs
    simp [is_bbox_plausible_fn]
  · intro α p cs mask fs
    cases mask <;> cases fs <;> simp [is_bbox_plausible_fn]
  · intro α p cs bbox fs
    cases bbox <;> cases fs <;> simp [is_bbox_plausible_fn]
  · intro α p cs bbox mask
    cases bbox <;> cases mask <;> simp [is_bbox_plausible_fn]
  · intro α p cs bb m fs hlen
    simp [is_bbox_plausible_fn, hlen]
  · intro α p cs bb m fs hdim
    by_cases hlen : bb.length < 4
    · simp [is_bbox_plausible_fn, hlen]
    · simp only [List.getD_eq_getElem?_getD] at hdim
      rcases hdim with hd | hd <;> simp [is_bbox_plausible_fn, hlen, hd]
  · intro α p cs bb m fs hlen hh hw hwh
    have hd1 : ¬ fs[0]?.getD 0 ≤ 0 := by
      simp only [List.getD_eq_getElem?_getD] at hh; omega
    have hd2 : ¬ fs[1]?.getD 0 ≤ 0 := by
      simp only [List.getD_eq_getElem?_getD] at hw; omega
    simp only [List.getD_eq_getElem?_getD] at hwh
    rcases hwh with hwh0 | hwh0 <;>
      simp [is_bbox_plausible_fn, hlen, hd1, hd2, hwh0]

lemma aim_command_rcs_y (m : ℚ) (hm : 0 ≤ m) (at_ ox oy sens dpi sf sm xs ys
    cx cy cx0 cy0 ds hb) :
    (aim_command (clip_movement m) at_ ox oy sens dpi sf sm xs ys cx cy cx0
      cy0 ds hb true).2.1 = 0 := by
  have hdy : aim_dy at_ hb cy oy cy0 true = 0 := by simp [aim_dy]
  have hmin : min m 0 = 0 := min_eq_right hm
  have hmax : max (-m) 0 = 0 := max_eq_right (neg_nonpos.mpr hm)
  simp only [aim_command, hdy, calculate_movement, zero_mul, clip_movement]
  by_cases hs : sqrt_lt ds sf = true <;>
    simp [hs, hmin, hmax]

/-- Claim C3: in `process_normal_mode` with aim type "nearest",
`head_y_min < body_y_max` and the offset-adjusted target Y inside the
head-to-body band, the vertical delta passed to `calculate_movement` is
exactly 0; outside the band it is the unmodified offset value; and whenever
RCS is active the override (applied after the nearest adjustment) zeroes the
vertical delta, so the enqueued command's Y component is 0 for both Main and
Secondary attempts. -/
theorem claim_C3 :
    (∀ (head_y_min body_y_max cy offY cy0 : ℚ), head_y_min < body_y_max →
      head_y_min ≤ cy + offY → cy + offY ≤ body_y_max →
      aim_dy "nearest" (some (head_y_min, body_y_max)) cy offY cy0 false = 0) ∧
    (∀ (head_y_min body_y_max cy offY cy0 : ℚ), head_y_min < body_y_max →
      ¬ (head_y_min ≤ cy + offY ∧ cy + offY ≤ body_y_max) →
      aim_dy "nearest" (some (head_y_min, body_y_max)) cy offY cy0 false =
        (cy + offY) - cy0) ∧
    (∀ (aim_type : String) (hb : Option (ℚ × ℚ)) (cy offY cy0 : ℚ),
      aim_dy aim_type hb cy offY cy0 true = 0) ∧
    (∀ (m : ℚ) (cfg : NormalConfig) (pressed : Nat → Bool)
        (targets : List Target) (xres yres : ℚ) (cmd : ℚ × ℚ × ℚ), 0 ≤ m →
      (process_normal_mode (clip_movement m) cfg pressed true targets
          xres yres).1 = some cmd ∨
        (process_normal_mode (clip_movement m) cfg pressed true targets
          xres yres).2 = some cmd →
      cmd.2.1 = 0) := by
  refine ⟨?_, ?_, ?_, ?_⟩
  · intro h b cy offY cy0 hhb h1 h2
    simp [aim_dy, hhb, h1, h2]
  · intro h b cy offY cy0 hhb hout
    simp [aim_dy, hhb, hout]
  · intro aim_type hb cy offY cy0
    simp [aim_dy]
  · intro m cfg pressed targets xres yres cmd hm hor
    cases targets with
    | nil => simp [process_normal_mode] at hor
    | cons t ts =>
      simp only [process_normal_mode] at hor
      split at hor
      · rcases hor with h | h
        · obtain rfl : cmd = _ := (Option.some_injective _ h.symm)
          exact aim_command_rcs_y m hm _ _ _ _ _ _ _ _ _ _ _ _ _ _ _
        · simp at h
      · split at hor
        · rcases hor with h | h
          · simp at h
          · obtain rfl : cmd = _ := (Option.some_injective _ h.symm)
            exact aim_command_rcs_y m hm _ _ _ _ _ _ _ _ _ _ _ _ _ _ _
        · simp at hor

/-- Witness for claim C3: band 100-200 with target cy=150 inside (dy 0) and
cy=250 outside (dy is the raw offset 200), the RCS override, and a concrete
frame whose Main command has Y component 0 while RCS is active. -/
theorem claim_C3_witness :
    aim_dy "nearest" (some (100, 200)) 150 0 50 false = 0 ∧
    aim_dy "nearest" (some (100, 200)) 250 0 50 false = 200 ∧
    aim_dy "head" none 250 0 50 true = 0 ∧
    ((process_normal_mode (clip_movement 10) cfg_main_only (fun _ => true)
        true [target_near_center] 10 10).1.getD (0, 0, 0)).2.1 = 0 := by
  refine ⟨claim_C3.1 100 200 150 0 50 (by norm_num) (by norm_num)
      (by norm_num), ?_, claim_C3.2.2.1 "head" none 250 0 50, ?_⟩
  · have h := claim_C3.2.1 100 200 250 0 50 (by norm_num) (by norm_num)
    rw [h]
    norm_num
  · have h1 : (process_normal_mode (clip_movement 10) cfg_main_only
        (fun _ => true) true [target_near_center] 10 10).1.isSome = true := by
      norm_num [process_normal_mode, sqrt_le, cfg_main_only,
        target_near_center]
    rcases ho : (process_normal_mode (clip_movement 10) cfg_main_only
        (fun _ => true) true [target_near_center] 10 10).1 with _ | c
    · rw [ho] at h1
      simp at h1
    · simp only [Option.getD_some]
      exact claim_C3.2.2.2 10 cfg_main_only (fun _ => true)
        [target_near_center] 10 10 c (by norm_num) (Or.inl ho)

/-- Claim C4: with a single target inside both the Main and the Secondary
FOV, both profiles enabled and both bound buttons pressed, exactly the Main
profile enqueues a movement command and Secondary enqueues nothing; with
Main's button not pressed, only Secondary enqueues. -/
theorem claim_C4 :
    ∀ (clip : ℚ → ℚ → ℚ × ℚ) (cfg : NormalConfig) (rcs : Bool) (t : Target)
      (xres yres : ℚ) (b1 b2 : Nat) (pressed pressed2 : Nat → Bool),
      cfg.enableaim = true → cfg.selected_mouse_button = some b1 →
      cfg.enableaim_sec = true → cfg.selected_mouse_button_sec = some b2 →
      sqrt_le ((t.cx - xres / 2) ^ 2 + (t.cy - yres / 2) ^ 2)
        cfg.fovsize = true →
      sqrt_le ((t.cx - xres / 2) ^ 2 + (t.cy - yres / 2) ^ 2)
        cfg.fovsize_sec = true →
      (pressed b1 = true →
        (process_normal_mode clip cfg pressed rcs [t] xres yres).1.isSome =
            true ∧
          (process_normal_mode clip cfg pressed rcs [t] xres yres).2 =
            none) ∧
      (pressed2 b1 = false → pressed2 b2 = true →
        (process_normal_mode clip cfg pressed2 rcs [t] xres yres).1 = none ∧
          (process_normal_mode clip cfg pressed2 rcs [t] xres
            yres).2.isSome = true) := by
  intro clip cfg rcs t xres yres b1 b2 pressed pressed2 hen hbtn hens hbtns
    hfov hfovs
  constructor
  · intro hp1
    simp [process_normal_mode, hen, hbtn, hfov, hp1]
  · intro hp1 hp2
    simp [process_normal_mode, hen, hbtn, hens, hbtns, hfov, hfovs, hp1, hp2]

/-- Witness for claim C4: a concrete config/target with both FOV gates
satisfied, once with Main's button pressed and once without. -/
theorem claim_C4_witness :
    ((process_normal_mode (clip_movement 10) cfg_main_sec (fun _ => true)
        false [target_near_center] 10 10).1.isSome = true ∧
      (process_normal_mode (clip_movement 10) cfg_main_sec (fun _ => true)
        false [target_near_center] 10 10).2 = none) ∧
    ((process_normal_mode (clip_movement 10) cfg_main_sec
        (fun n => decide (n = 1)) false [target_near_center] 10 10).1 =
        none ∧
      (process_normal_mode (clip_movement 10) cfg_main_sec
        (fun n => decide (n = 1)) false [target_near_center] 10
        10).2.isSome = true) := by
  have h := claim_C4 (clip_movement 10) cfg_main_sec false target_near_center
    10 10 0 1 (fun _ => true) (fun n => decide (n = 1)) rfl rfl rfl rfl
    (by norm_num [sqrt_le, cfg_main_sec, target_near_center])
    (by norm_num [sqrt_le, cfg_main_sec, target_near_center])
  exact ⟨h.1 rfl, h.2 (by decide) (by decide)⟩

lemma foldl_min_le_foldl_max (f : Int × Int → Int) :
    ∀ (l : List (Int × Int)) (a b : Int), a ≤ b →
      l.foldl (fun x pr => min x (f pr)) a ≤
        l.foldl (fun x pr => max x (f pr)) b := by
  intro l
  induction l with
  | nil => intro a b h; simpa using h
  | cons p r ih =>
    intro a b h
    simp only [List.foldl_cons]
    exact ih _ _ (le_trans (min_le_left _ _) (le_trans h (le_max_left _ _)))

lemma cluster_height_pos (q : Int × Int) (r : List (Int × Int)) :
    0 < cluster_height (q :: r) := by
  have h := foldl_min_le_foldl_max Prod.snd r q.2 q.2 le_rfl
  simp only [cluster_height, min_y, max_y]
  omega

lemma shape_small_rejected (p : ShapeParams) (conv : Cluster → ℚ)
    (c : Cluster) (hne : c ≠ []) (hcount : c.length < p.min_pixel_count) :
    is_shape_plausible_fn true p conv c = false := by
  cases c with
  | nil => exact absurd rfl hne
  | cons q r =>
    simp [is_shape_plausible_fn]
    intro hge
    exfalso
    simp only [List.length_cons] at hcount
    omega

lemma shape_tall_thin_accepted (p : ShapeParams) (conv : Cluster → ℚ)
    (c : Cluster) (hne : c ≠ [])
    (h1 : ¬ c.length < p.min_pixel_count)
    (h2 : ¬ c.length > p.max_pixel_count)
    (h3 : ¬ cluster_area c < p.min_area)
    (h4 : ¬ (cluster_width c > p.max_width ∨
        cluster_height c > p.max_height))
    (h5 : (cluster_height c : ℚ) > (cluster_width c : ℚ) * (3 / 2)) :
    is_shape_plausible_fn true p conv c = true := by
  cases c with
  | nil => exact absurd rfl hne
  | cons q r =>
    simp only [cluster_area] at h3
    have hpos := cluster_height_pos q r
    have hz : ¬ cluster_height (q :: r) = 0 := by omega
    simp [is_shape_plausible_fn, h1, h2, h3, h4, h5, hz]
    simp only [List.length_cons] at h1 h2
    omega

lemma match_clusters_one_unmatched (m fc : Nat)
    (canli : List (Nat × HedefInfo)) (vs : List Cluster) (c : Cluster)
    (h : ∀ t ∈ canli,
      within_distance m (get_cluster_center c) t.2.pozisyon = false) :
    match_clusters m fc (canli, vs) [c] = (canli, vs ++ [c]) := by
  have hfind : find_matching_target m canli (get_cluster_center c) = none := by
    rw [find_matching_target, List.find?_eq_none.mpr]
    · rfl
    · intro t ht
      simp [h t ht]
  simp [match_clusters, hfind]

lemma match_clusters_one_matched (m fc : Nat) (i : Nat) (info : HedefInfo)
    (c : Cluster)
    (h : within_distance m (get_cluster_center c) info.pozisyon = true) :
    match_clusters m fc ([(i, info)], []) [c] =
      ([(i, ⟨get_cluster_center c, fc, c⟩)], []) := by
  have hfind : find_matching_target m [(i, info)] (get_cluster_center c) =
      some i := by
    simp [find_matching_target, List.find?_cons, h]
  simp [match_clusters, hfind]

lemma create_one_near (m fc : Nat) (iks : List ((Int × Int) × Nat))
    (acc : List (Nat × HedefInfo) × Nat × List Cluster) (c : Cluster)
    (h : is_near_dead_icon m iks (get_cluster_center c) = true) :
    create_new_targets m fc iks acc [c] = acc := by
  simp [create_new_targets, h]

lemma create_one_far (m fc : Nat) (iks : List ((Int × Int) × Nat))
    (canli : List (Nat × HedefInfo)) (nid : Nat) (vs : List Cluster)
    (c : Cluster)
    (h : is_near_dead_icon m iks (get_cluster_center c) = false) :
    create_new_targets m fc iks (canli, nid, vs) [c] =
      (canli ++ [(nid, ⟨get_cluster_center c, fc, c⟩)], nid + 1,
        vs ++ [c]) := by
  simp [create_new_targets, h]

lemma create_monotone (m fc : Nat) (iks : List ((Int × Int) × Nat)) :
    ∀ (cs : List Cluster) (canli : List (Nat × HedefInfo)) (nid : Nat)
      (vs : List Cluster),
      nid ≤ (create_new_targets m fc iks (canli, nid, vs) cs).2.1 := by
  intro cs
  induction cs with
  | nil => intro canli nid vs; exact le_rfl
  | cons c rest ih =>
    intro canli nid vs
    by_cases h : is_near_dead_icon m iks (get_cluster_center c) = true
    · rw [create_new_targets, if_pos h]
      exact ih canli nid vs
    · have h' : is_near_dead_icon m iks (get_cluster_center c) = false := by
        simpa using h
      rw [create_new_targets, if_neg (by simp [h'])]
      exact le_trans (Nat.le_succ _) (ih _ _ _)

/-- The fully-reduced single-cluster "new target" frame: the cluster passes
the shape filter, matches no live target and is near no dead icon. -/
lemma update_frame_single_new (shape_filter : Cluster → Bool) (p : TrackParams)
    (s : TrackState) (c : Cluster) (hc : shape_filter c = true)
    (hm : ∀ t ∈ s.canli_hedefler,
      within_distance p.max_hedef_mesafe (get_cluster_center c)
        t.2.pozisyon = false)
    (hik : ∀ ik ∈ s.olu_ikonlar,
      within_distance p.max_hedef_mesafe (get_cluster_center c) ik.1 =
        false) :
    update_frame shape_filter p s [c] =
      (⟨(s.canli_hedefler.filter (fun t =>
            !decide (s.frame_counter + 1 - t.2.son_gorulme_ani >
              p.hedef_kayip_suresi))) ++
          [(s.sonraki_hedef_id,
            ⟨get_cluster_center c, s.frame_counter + 1, c⟩)],
        ((s.olu_ikonlar ++ (s.canli_hedefler.filter (fun t =>
            decide (s.frame_counter + 1 - t.2.son_gorulme_ani >
              p.hedef_kayip_suresi))).map
            (fun t => (t.2.pozisyon, s.frame_counter + 1))).filter
          (fun ik => decide (s.frame_counter + 1 - ik.2 ≤
            p.olu_ikon_suresi))),
        s.sonraki_hedef_id + 1, s.frame_counter + 1⟩,
       [c] ++ ((s.canli_hedefler.filter (fun t =>
            !decide (s.frame_counter + 1 - t.2.son_gorulme_ani >
              p.hedef_kayip_suresi))) ++
          [((s.sonraki_hedef_id,
            ⟨get_cluster_center c, s.frame_counter + 1, c⟩) :
              Nat × HedefInfo)]).map
          (fun t : Nat × HedefInfo => t.2.cluster)) := by
  have hfar : is_near_dead_icon p.max_hedef_mesafe
      (s.olu_ikonlar ++ (s.canli_hedefler.filter (fun t =>
        decide (s.frame_counter + 1 - t.2.son_gorulme_ani >
          p.hedef_kayip_suresi))).map
        (fun t => (t.2.pozisyon, s.frame_counter + 1)))
      (get_cluster_center c) = false := by
    rw [is_near_dead_icon, List.any_eq_false]
    intro ik hmem
    rcases List.mem_append.mp hmem with h1 | h1
    · simp [hik ik h1]
    · obtain ⟨t, ht, rfl⟩ := List.mem_map.mp h1
      simp [hm t (List.mem_of_mem_filter ht)]
  rw [update_frame]
  simp only [List.filter_cons, hc, if_pos, List.filter_nil]
  rw [match_clusters_one_unmatched p.max_hedef_mesafe (s.frame_counter + 1)
    s.canli_hedefler [] c hm]
  simp only [List.nil_append]
  rw [create_one_far p.max_hedef_mesafe (s.frame_counter + 1)
    (s.olu_ikonlar ++ (s.canli_hedefler.filter (fun t =>
      decide (s.frame_counter + 1 - t.2.son_gorulme_ani >
        p.hedef_kayip_suresi))).map
      (fun t => (t.2.pozisyon, s.frame_counter + 1)))
    (s.canli_hedefler.filter (fun t =>
      !decide (s.frame_counter + 1 - t.2.son_gorulme_ani >
        p.hedef_kayip_suresi)))
    s.sonraki_hedef_id [] c hfar]
  rfl

/-- The fully-reduced frame in which every incoming cluster fails the shape
filter: only eviction and dead-icon cleanup happen. -/
lemma update_frame_filtered_out (shape_filter : Cluster → Bool)
    (p : TrackParams) (s : TrackState) (cs : List Cluster)
    (hf : ∀ x ∈ cs, shape_filter x = false) :
    update_frame shape_filter p s cs =
      (⟨s.canli_hedefler.filter (fun t =>
          !decide (s.frame_counter + 1 - t.2.son_gorulme_ani >
            p.hedef_kayip_suresi)),
        ((s.olu_ikonlar ++ (s.canli_hedefler.filter (fun t =>
            decide (s.frame_counter + 1 - t.2.son_gorulme_ani >
              p.hedef_kayip_suresi))).map
            (fun t => (t.2.pozisyon, s.frame_counter + 1))).filter
          (fun ik => decide (s.frame_counter + 1 - ik.2 ≤
            p.olu_ikon_suresi))),
        s.sonraki_hedef_id, s.frame_counter + 1⟩,
       (s.canli_hedefler.filter (fun t =>
          !decide (s.frame_counter + 1 - t.2.son_gorulme_ani >
            p.hedef_kayip_suresi))).map
         (fun t : Nat × HedefInfo => t.2.cluster)) := by
  have hfil : cs.filter shape_filter = [] := by
    rw [List.filter_eq_nil_iff]
    intro a ha
    simp [hf a ha]
  rw [update_frame, hfil]
  rfl

/-- The fully-reduced single-cluster frame in which the cluster is unmatched
but lands near a remembered dead icon: it is dropped for this frame. -/
lemma update_frame_single_suppressed (shape_filter : Cluster → Bool)
    (p : TrackParams) (s : TrackState) (c : Cluster)
    (hc : shape_filter c = true)
    (hm : ∀ t ∈ s.canli_hedefler,
      within_distance p.max_hedef_mesafe (get_cluster_center c)
        t.2.pozisyon = false)
    (hnear : ∃ ik ∈ s.olu_ikonlar,
      within_distance p.max_hedef_mesafe (get_cluster_center c) ik.1 =
        true) :
    update_frame shape_filter p s [c] =
      (⟨s.canli_hedefler.filter (fun t =>
          !decide (s.frame_counter + 1 - t.2.son_gorulme_ani >
            p.hedef_kayip_suresi)),
        ((s.olu_ikonlar ++ (s.canli_hedefler.filter (fun t =>
            decide (s.frame_counter + 1 - t.2.son_gorulme_ani >
              p.hedef_kayip_suresi))).map
            (fun t => (t.2.pozisyon, s.frame_counter + 1))).filter
          (fun ik => decide (s.frame_counter + 1 - ik.2 ≤
            p.olu_ikon_suresi))),
        s.sonraki_hedef_id, s.frame_counter + 1⟩,
       (s.canli_hedefler.filter (fun t =>
          !decide (s.frame_counter + 1 - t.2.son_gorulme_ani >
            p.hedef_kayip_suresi))).map
         (fun t : Nat × HedefInfo => t.2.cluster)) := by
  obtain ⟨ik, hikmem, hikdist⟩ := hnear
  have hnear2 : is_near_dead_icon p.max_hedef_mesafe
      (s.olu_ikonlar ++ (s.canli_hedefler.filter (fun t =>
        decide (s.frame_counter + 1 - t.2.son_gorulme_ani >
          p.hedef_kayip_suresi))).map
        (fun t => (t.2.pozisyon, s.frame_counter + 1)))
      (get_cluster_center c) = true := by
    rw [is_near_dead_icon, List.any_eq_true]
    exact ⟨ik, List.mem_append_left _ hikmem, hikdist⟩
  rw [update_frame]
  simp only [List.filter_cons, hc, if_pos, List.filter_nil]
  rw [match_clusters_one_unmatched p.max_hedef_mesafe (s.frame_counter + 1)
    s.canli_hedefler [] c hm]
  simp only [List.nil_append]
  rw [create_one_near p.max_hedef_mesafe (s.frame_counter + 1) _ _ c hnear2]
  rfl

/-- Counterexample to claim C1 as stated: with the detector enabled and a
fresh tracking state, a single shape-valid cluster becomes a new live
target and its cluster appears twice in the same frame's output (once from
the new-target step, once from the live-target sweep). -/
theorem claim_C1_counterexample :
    (update_frame
      (is_shape_plausible_fn true defaultShapeParams (fun _ => 0))
      defaultTrackParams initialTrackState [tall_cluster_15]).2 =
      [tall_cluster_15, tall_cluster_15] := by
  have hh : cluster_height tall_cluster_15 = 15 := by decide
  have hw : cluster_width tall_cluster_15 = 4 := by decide
  have hpl : is_shape_plausible_fn true defaultShapeParams (fun _ => 0)
      tall_cluster_15 = true := by
    refine shape_tall_thin_accepted defaultShapeParams (fun _ => 0)
      tall_cluster_15 (by decide) (by decide) (by decide) (by decide)
      (by decide) ?_
    rw [hh, hw]
    norm_num
  rw [update_frame_single_new
    (is_shape_plausible_fn true defaultShapeParams (fun _ => 0))
    defaultTrackParams initialTrackState tall_cluster_15 hpl
    (by intro t ht; simp [initialTrackState] at ht)
    (by intro ik hik; simp [initialTrackState] at hik)]
  rfl

/-- Claim C1 (amended: a cluster that becomes a new live target this frame
appears twice in the returned valid-target list — once as a newly created
target and once in the live-target sweep — while the cluster of an
already-live matched target appears exactly once): stated for single-cluster
frames with fresh-cluster hypotheses. -/
theorem claim_C1 :
    (∀ (shape_filter : Cluster → Bool) (p : TrackParams) (s : TrackState)
        (c : Cluster),
      shape_filter c = true →
      (∀ t ∈ s.canli_hedefler,
        within_distance p.max_hedef_mesafe (get_cluster_center c)
          t.2.pozisyon = false) →
      (∀ ik ∈ s.olu_ikonlar,
        within_distance p.max_hedef_mesafe (get_cluster_center c) ik.1 =
          false) →
      (∀ t ∈ s.canli_hedefler, t.2.cluster ≠ c) →
      ((update_frame shape_filter p s [c]).2).count c = 2) ∧
    (∀ (shape_filter : Cluster → Bool) (p : TrackParams) (i : Nat)
        (info : HedefInfo) (olu : List ((Int × Int) × Nat))
        (nid fcnt : Nat) (c : Cluster),
      shape_filter c = true →
      within_distance p.max_hedef_mesafe (get_cluster_center c)
        info.pozisyon = true →
      (update_frame shape_filter p ⟨[(i, info)], olu, nid, fcnt⟩ [c]).2 =
        [c]) := by
  constructor
  · intro shape_filter p s c hc hm hik hdist
    rw [update_frame_single_new shape_filter p s c hc hm hik]
    dsimp only
    rw [List.map_append, List.count_append, List.count_append]
    have hzero : ((s.canli_hedefler.filter (fun t =>
        !decide (s.frame_counter + 1 - t.2.son_gorulme_ani >
          p.hedef_kayip_suresi))).map
        (fun t : Nat × HedefInfo => t.2.cluster)).count c = 0 := by
      rw [List.count_eq_zero]
      intro hmem
      obtain ⟨t, ht, hteq⟩ := List.mem_map.mp hmem
      exact hdist t (List.mem_of_mem_filter ht) hteq
    rw [hzero]
    simp
  · intro shape_filter p i info olu nid fcnt c hc hmatch
    rw [update_frame]
    simp only [List.filter_cons, hc, if_pos, List.filter_nil]
    rw [match_clusters_one_matched p.max_hedef_mesafe (fcnt + 1) i info c
      hmatch]
    simp [create_new_targets, Nat.sub_self]

/-- Witness for claim C1: a fresh state creates a new target whose cluster
appears twice; a matched live target at (0,0) yields the cluster once. -/
theorem claim_C1_witness :
    ((update_frame (fun _ => true) defaultTrackParams initialTrackState
      [tall_cluster_15]).2).count tall_cluster_15 = 2 ∧
    (update_frame (fun _ => true) defaultTrackParams
      ⟨[(1, ⟨(0, 0), 0, []⟩)], [], 2, 0⟩ [tall_cluster_15]).2 =
      [tall_cluster_15] :=
  ⟨claim_C1.1 (fun _ => true) defaultTrackParams initialTrackState
      tall_cluster_15 rfl (by intro t ht; simp [initialTrackState] at ht)
      (by intro ik hik; simp [initialTrackState] at hik)
      (by intro t ht; simp [initialTrackState] at ht),
   claim_C1.2 (fun _ => true) defaultTrackParams 1 ⟨(0, 0), 0, []⟩ [] 2 0
      tall_cluster_15 rfl (by decide)⟩

/-- Claim C5: a live target unseen for more than `hedef_kayip_suresi`
frames is evicted and recorded as a dead icon at its last position (others
survive); an unmatched cluster near a remembered dead icon is dropped for
the frame (no new target, no id consumed); an unmatched cluster near
nothing becomes a new live target with the current (strictly increasing)
counter value, which is then incremented; the counter never decreases; and
after every frame no remembered dead icon is older than `olu_ikon_suresi`
frames. -/
theorem claim_C5 :
    (∀ (shape_filter : Cluster → Bool) (p : TrackParams) (s : TrackState)
        (cs : List Cluster), (∀ x ∈ cs, shape_filter x = false) →
      (∀ i info, (i, info) ∈ s.canli_hedefler →
        s.frame_counter + 1 - info.son_gorulme_ani >
          p.hedef_kayip_suresi →
        (i, info) ∉ (update_frame shape_filter p s cs).1.canli_hedefler ∧
        (info.pozisyon, s.frame_counter + 1) ∈
          (update_frame shape_filter p s cs).1.olu_ikonlar) ∧
      (∀ i info, (i, info) ∈ s.canli_hedefler →
        ¬ s.frame_counter + 1 - info.son_gorulme_ani >
          p.hedef_kayip_suresi →
        (i, info) ∈ (update_frame shape_filter p s cs).1.canli_hedefler)) ∧
    (∀ (shape_filter : Cluster → Bool) (p : TrackParams) (s : TrackState)
        (c : Cluster), shape_filter c = true →
      (∀ t ∈ s.canli_hedefler,
        within_distance p.max_hedef_mesafe (get_cluster_center c)
          t.2.pozisyon = false) →
      (∃ ik ∈ s.olu_ikonlar,
        within_distance p.max_hedef_mesafe (get_cluster_center c) ik.1 =
          true) →
      (update_frame shape_filter p s [c]).1.sonraki_hedef_id =
        s.sonraki_hedef_id ∧
      ∀ e ∈ (update_frame shape_filter p s [c]).1.canli_hedefler,
        e ∈ s.canli_hedefler) ∧
    (∀ (shape_filter : Cluster → Bool) (p : TrackParams) (s : TrackState)
        (c : Cluster), shape_filter c = true →
      (∀ t ∈ s.canli_hedefler,
        within_distance p.max_hedef_mesafe (get_cluster_center c)
          t.2.pozisyon = false) →
      (∀ ik ∈ s.olu_ikonlar,
        within_distance p.max_hedef_mesafe (get_cluster_center c) ik.1 =
          false) →
      ((s.sonraki_hedef_id,
          (⟨get_cluster_center c, s.frame_counter + 1, c⟩ : HedefInfo)) ∈
        (update_frame shape_filter p s [c]).1.canli_hedefler ∧
      (update_frame shape_filter p s [c]).1.sonraki_hedef_id =
        s.sonraki_hedef_id + 1)) ∧
    (∀ (shape_filter : Cluster → Bool) (p : TrackParams) (s : TrackState)
        (cs : List Cluster),
      s.sonraki_hedef_id ≤
        (update_frame shape_filter p s cs).1.sonraki_hedef_id) ∧
    (∀ (shape_filter : Cluster → Bool) (p : TrackParams) (s : TrackState)
        (cs : List Cluster),
      ∀ ik ∈ (update_frame shape_filter p s cs).1.olu_ikonlar,
        s.frame_counter + 1 - ik.2 ≤ p.olu_ikon_suresi) := by
  refine ⟨?_, ?_, ?_, ?_, ?_⟩
  · intro shape_filter p s cs hf
    rw [update_frame_filtered_out shape_filter p s cs hf]
    constructor
    · intro i info hmem hlag
      constructor
      · intro hin
        have := (List.mem_filter.mp hin).2
        simp at this
        omega
      · refine List.mem_filter.mpr ⟨List.mem_append_right _ ?_, by simp⟩
        exact List.mem_map.mpr
          ⟨(i, info), List.mem_filter.mpr ⟨hmem, by simp [hlag]⟩, rfl⟩
    · intro i info hmem hlag
      exact List.mem_filter.mpr ⟨hmem, by simp [hlag]⟩
  · intro shape_filter p s c hc hm hnear
    rw [update_frame_single_suppressed shape_filter p s c hc hm hnear]
    exact ⟨rfl, fun e he => List.mem_of_mem_filter he⟩
  · intro shape_filter p s c hc hm hik
    rw [update_frame_single_new shape_filter p s c hc hm hik]
    exact ⟨List.mem_append_right _ (List.mem_singleton.mpr rfl), rfl⟩
  · intro shape_filter p s cs
    simp only [update_frame]
    exact create_monotone _ _ _ _ _ _ _
  · intro shape_filter p s cs ik hmem
    simp only [update_frame] at hmem
    have := (List.mem_filter.mp hmem).2
    simpa using this

/-- Witness for claim C5: a stale target is evicted into a dead icon and a
fresh one survives; a cluster near the icon is suppressed; the same cluster
on a fresh state is created with the next id. -/
theorem claim_C5_witness :
    ((1, (⟨(0, 0), 1, []⟩ : HedefInfo)) ∉
        (update_frame (fun _ => true) defaultTrackParams
          ⟨[(1, ⟨(0, 0), 1, []⟩), (2, ⟨(50, 50), 7, []⟩)], [], 3, 7⟩
          []).1.canli_hedefler ∧
      ((0, 0), 8) ∈
        (update_frame (fun _ => true) defaultTrackParams
          ⟨[(1, ⟨(0, 0), 1, []⟩), (2, ⟨(50, 50), 7, []⟩)], [], 3, 7⟩
          []).1.olu_ikonlar) ∧
    ((2, (⟨(50, 50), 7, []⟩ : HedefInfo)) ∈
      (update_frame (fun _ => true) defaultTrackParams
        ⟨[(1, ⟨(0, 0), 1, []⟩), (2, ⟨(50, 50), 7, []⟩)], [], 3, 7⟩
        []).1.canli_hedefler) ∧
    ((update_frame (fun _ => true) defaultTrackParams
        ⟨[], [((0, 0), 0)], 5, 0⟩ [tall_cluster_15]).1.sonraki_hedef_id =
      5) ∧
    ((5, (⟨(1, 7), 1, tall_cluster_15⟩ : HedefInfo)) ∈
      (update_frame (fun _ => true) defaultTrackParams
        ⟨[], [((200, 200), 0)], 5, 0⟩
        [tall_cluster_15]).1.canli_hedefler) := by
  have h1 := (claim_C5.1 (fun _ => true) defaultTrackParams
    ⟨[(1, ⟨(0, 0), 1, []⟩), (2, ⟨(50, 50), 7, []⟩)], [], 3, 7⟩ []
    (by intro x hx; simp at hx)).1 1 ⟨(0, 0), 1, []⟩ (by simp) (by decide)
  have h2 := (claim_C5.1 (fun _ => true) defaultTrackParams
    ⟨[(1, ⟨(0, 0), 1, []⟩), (2, ⟨(50, 50), 7, []⟩)], [], 3, 7⟩ []
    (by intro x hx; simp at hx)).2 2 ⟨(50, 50), 7, []⟩ (by simp)
    (by decide)
  have hex : ∃ ik ∈ [(((0 : Int), (0 : Int)), (0 : Nat))],
      within_distance defaultTrackParams.max_hedef_mesafe
        (get_cluster_center tall_cluster_15) ik.1 = true := by
    refine ⟨((0, 0), 0), List.mem_singleton.mpr rfl, ?_⟩
    decide
  have h3 := claim_C5.2.1 (fun _ => true) defaultTrackParams
    ⟨[], [((0, 0), 0)], 5, 0⟩ tall_cluster_15 rfl
    (by intro t ht; simp at ht) hex
  have hfar2 : ∀ ik ∈ [(((200 : Int), (200 : Int)), (0 : Nat))],
      within_distance defaultTrackParams.max_hedef_mesafe
        (get_cluster_center tall_cluster_15) ik.1 = false := by
    intro ik hik
    rw [List.mem_singleton] at hik
    subst hik
    decide
  have h4 := claim_C5.2.2.1 (fun _ => true) defaultTrackParams
    ⟨[], [((200, 200), 0)], 5, 0⟩ tall_cluster_15 rfl
    (by intro t ht; simp at ht) hfar2
  have hcen : get_cluster_center tall_cluster_15 = (1, 7) := by decide
  refine ⟨⟨h1.1, h1.2⟩, h2, h3.1, ?_⟩
  have h5 := h4.1
  rwa [hcen] at h5

/-- Counterexample to claim C6 as stated: the empty cluster has fewer than
15 pixels yet the shape filter passes it through as True (the
`if not cluster` guard of line 87 fires before the pixel-count check). -/
theorem claim_C6_counterexample :
    is_shape_plausible_fn true defaultShapeParams (fun _ => 0) [] = true ∧
    ([] : Cluster).length < defaultShapeParams.min_pixel_count :=
  ⟨rfl, by decide⟩

/-- Claim C6 (amended: "every cluster" must exclude the empty cluster,
which the source passes through): every nonempty cluster with fewer than 15
pixels is rejected; the concrete 15-pixel tall-thin cluster with bbox area
60 ≥ 50 and acceptable aspect ratio passes for every convexity oracle
(minimum-count boundary inclusive) while its 14-pixel prefix fails; and
every cluster passing the count/area/max-dimension checks with
height > width × 1.5 is accepted immediately, regardless of the density,
connected-component and convexity tests. -/
theorem claim_C6 :
    (∀ (p : ShapeParams) (conv : Cluster → ℚ) (c : Cluster), c ≠ [] →
      c.length < p.min_pixel_count →
      is_shape_plausible_fn true p conv c = false) ∧
    (tall_cluster_15.length = 15 ∧ 50 ≤ cluster_area tall_cluster_15 ∧
      ∀ conv : Cluster → ℚ,
        is_shape_plausible_fn true defaultShapeParams conv tall_cluster_15 =
          true) ∧
    (∀ conv : Cluster → ℚ,
      is_shape_plausible_fn true defaultShapeParams conv
        (tall_cluster_15.take 14) = false) ∧
    (∀ (p : ShapeParams) (conv : Cluster → ℚ) (c : Cluster), c ≠ [] →
      ¬ c.length < p.min_pixel_count → ¬ c.length > p.max_pixel_count →
      ¬ cluster_area c < p.min_area →
      ¬ (cluster_width c > p.max_width ∨ cluster_height c > p.max_height) →
      (cluster_height c : ℚ) > (cluster_width c : ℚ) * (3 / 2) →
      is_shape_plausible_fn true p conv c = true) := by
  have hh : cluster_height tall_cluster_15 = 15 := by decide
  have hw : cluster_width tall_cluster_15 = 4 := by decide
  have hq : (cluster_height tall_cluster_15 : ℚ) >
      (cluster_width tall_cluster_15 : ℚ) * (3 / 2) := by
    rw [hh, hw]; norm_num
  refine ⟨shape_small_rejected,
    ⟨rfl, by decide, fun conv => shape_tall_thin_accepted defaultShapeParams
      conv tall_cluster_15 (by decide) (by decide) (by decide) (by decide)
      (by decide) hq⟩,
    fun conv => shape_small_rejected defaultShapeParams conv
      (tall_cluster_15.take 14) (by decide) (by decide),
    shape_tall_thin_accepted⟩

/-- Witness for claim C6: a 1-pixel cluster is rejected; the concrete
tall-thin 15-pixel cluster is accepted through the short-circuit. -/
theorem claim_C6_witness :
    is_shape_plausible_fn true defaultShapeParams (fun _ => 0) [(0, 0)] =
      false ∧
    is_shape_plausible_fn true defaultShapeParams (fun _ => 0) tall_cluster_15 =
      true := by
  have hh : cluster_height tall_cluster_15 = 15 := by decide
  have hw : cluster_width tall_cluster_15 = 4 := by decide
  refine ⟨claim_C6.1 defaultShapeParams (fun _ => 0) [(0, 0)] (by decide)
      (by decide),
    claim_C6.2.2.2 defaultShapeParams (fun _ => 0) tall_cluster_15
      (by decide) (by decide) (by decide) (by decide) (by decide) ?_⟩
  rw [hh, hw]
  norm_num

/-- Witness for claim C10: a disabled detector, missing arguments, a short
bbox, a degenerate frame shape, and a zero-width bbox. -/
theorem claim_C10_witness :
    is_bbox_plausible_fn true defaultBboxParams (fun (_ : Unit) _ => true)
      (some [5, 5]) (some ()) (some [100, 100]) = true ∧
    is_bbox_plausible_fn true defaultBboxParams (fun (_ : Unit) _ => true)
      (some [5, 5, 10, 10]) (some ()) (some [0, 100]) = true ∧
    is_bbox_plausible_fn true defaultBboxParams (fun (_ : Unit) _ => true)
      (some [5, 5, 0, 10]) (some ()) (some [100, 100]) = false :=
  ⟨claim_C10.2.2.2.2.1 Unit defaultBboxParams _ [5, 5] () [100, 100]
      (by decide),
   claim_C10.2.2.2.2.2.1 Unit defaultBboxParams _ [5, 5, 10, 10] () [0, 100]
      (by decide),
   claim_C10.2.2.2.2.2.2 Unit defaultBboxParams _ [5, 5, 0, 10] ()
      [100, 100] (by decide) (by decide) (by decide) (by decide)⟩

end CVM
